import Mathlib

/-!
Verification of the FluidNightmare renderer core (source/main.cpp) against its
natural-language specification.

The development shallowly embeds the relevant parts of `fluid_nightmare_main`:

* the scene ingestion loop of `fluid_nightmare_main::initialize` (partitioning
  models by distinct material, building per-partition buffers, buffer views and
  bottom-level structures, creating geometry instance records, recording
  name/range bookkeeping, gathering materials, building the top-level
  structure, creating the offscreen render target and the pipeline);
* the per-frame command recording of `fluid_nightmare_main::render`;
* the transform-update window logic of `fluid_nightmare_main::update`;
* the resize / shader-reload coordination registered on the updater.

GPU objects (buffers, buffer views, acceleration structures, image views,
pipelines) are represented by their creation ordinals: every `create_*` call in
the source returns a fresh handle, and the code creates them in a fixed order,
so the ordinal is a faithful stand-in for the handle's identity.  Scalar
payloads whose numeric content no verified property inspects (placement
transforms, material descriptors, mesh indices) are carried as tokens.
-/

/- ------------------------------------------------------------------ -/
/- Scene input data model (ORCA scene, §3 of the spec)                 -/
/- ------------------------------------------------------------------ -/

/-- One placement of a model in the ORCA scene file (`model.mInstances` entry).
The translation/rotation/scaling payload is carried as a token: `initialize`
composes it into the geometry instance's transform verbatim, and no verified
property inspects the matrix entries. -/
structure OrcaInstance where
  mTransform : Nat
  deriving DecidableEq, Repr

/-- One entry of `model.mLoadedModel->distinct_material_configs()`: a distinct
material descriptor together with the indices of the meshes that use it.  This
is what the spec calls a partition. -/
structure MaterialGroup where
  materialConfig : Nat
  meshIndices : List Nat
  deriving DecidableEq, Repr

/-- One model of the loaded ORCA scene: name, the distinct-material groups in
first-seen order, and the placed instances. -/
structure OrcaModel where
  mName : String
  distinctMaterials : List MaterialGroup
  mInstances : List OrcaInstance
  deriving DecidableEq, Repr

/-- `avk::geometry_instance` as configured by `initialize`: a reference to the
bottom-level structure (by creation ordinal), the placement transform, and the
custom index (`set_custom_index(bufferViewIndex)`). -/
structure GeometryInstance where
  blasRef : Nat
  transform : Nat
  customIndex : Nat
  deriving DecidableEq, Repr

/-- The member state filled by the ingestion loop of
`fluid_nightmare_main::initialize` (lines 36-93 of main.cpp).  Buffer views and
bottom-level structures are identified by creation ordinals. -/
structure IngestState where
  materialData : List Nat
  mBlasNamesAndRanges : List (String × Int × Int)
  mBlas : List Nat
  mGeometryInstances : List GeometryInstance
  mPositionsBufferViews : List Nat
  mIndexBufferViews : List Nat
  mNormalsBufferViews : List Nat
  mTexCoordsBufferViews : List Nat
  deriving DecidableEq, Repr

/-- All member vectors start out empty. -/
def IngestState.emptyState : IngestState :=
  { materialData := []
    mBlasNamesAndRanges := []
    mBlas := []
    mGeometryInstances := []
    mPositionsBufferViews := []
    mIndexBufferViews := []
    mNormalsBufferViews := []
    mTexCoordsBufferViews := [] }

/-- Body of the inner loop over `distinct_material_configs()` (main.cpp lines
49-89): push the material, create the per-partition buffers and the
bottom-level structure (fresh handle = number of BLAS created so far), create
one geometry instance per placed instance of the model -- note that
`bufferViewIndex` is read from `mTexCoordsBufferViews.size()` BEFORE the four
buffer views of this partition are appended, so all instances of this
partition share it -- then push the BLAS and the four buffer views. -/
def processPartition (model : OrcaModel) (st : IngestState) (part : MaterialGroup) :
    IngestState :=
  let blas := st.mBlas.length
  let bufferViewIndex := st.mTexCoordsBufferViews.length
  { st with
    materialData := st.materialData ++ [part.materialConfig]
    mBlas := st.mBlas ++ [blas]
    mGeometryInstances := st.mGeometryInstances ++
      model.mInstances.map (fun inst =>
        { blasRef := blas, transform := inst.mTransform, customIndex := bufferViewIndex })
    mPositionsBufferViews := st.mPositionsBufferViews ++ [st.mPositionsBufferViews.length]
    mIndexBufferViews := st.mIndexBufferViews ++ [st.mIndexBufferViews.length]
    mNormalsBufferViews := st.mNormalsBufferViews ++ [st.mNormalsBufferViews.length]
    mTexCoordsBufferViews := st.mTexCoordsBufferViews ++ [st.mTexCoordsBufferViews.length] }

/-- Body of the outer loop over `orca->models()` (main.cpp lines 39-93):
`mBlasNamesAndRanges.emplace_back(name, mGeometryInstances.size(), -1)`, then
process every distinct-material group, then overwrite the third tuple
component of the entry just added with the new `mGeometryInstances.size()`
(the C++ code mutates the emplaced element through a reference; the inner loop
never touches `mBlasNamesAndRanges`, so replacing the last entry is the same
mutation). -/
def processModel (st : IngestState) (model : OrcaModel) : IngestState :=
  let start : Int := st.mGeometryInstances.length
  let st1 := { st with
    mBlasNamesAndRanges := st.mBlasNamesAndRanges ++ [(model.mName, start, -1)] }
  let st2 := model.distinctMaterials.foldl (processPartition model) st1
  { st2 with
    mBlasNamesAndRanges := st2.mBlasNamesAndRanges.dropLast ++
      [(model.mName, start, (st2.mGeometryInstances.length : Int))] }

/-- The complete ingestion of a scene: fold the per-model loop over all models,
starting from empty member vectors. -/
def ingest (models : List OrcaModel) : IngestState :=
  models.foldl processModel IngestState.emptyState

/- ------------------------------------------------------------------ -/
/- Closed forms for the ingestion result                               -/
/- ------------------------------------------------------------------ -/

/-- `ordinals p k = [p, p+1, ..., p+k-1]`: the creation ordinals handed out to
`k` consecutively created GPU objects when `p` of them already exist. -/
def ordinals : Nat → Nat → List Nat
  | _, 0 => []
  | p, k + 1 => p :: ordinals (p + 1) k

/-- The geometry instances one partition contributes: one per placed instance
of the owning model, all referring to BLAS ordinal `p` and all carrying custom
index `p`. -/
def instBlock (m : OrcaModel) (p : Nat) : List GeometryInstance :=
  m.mInstances.map (fun inst =>
    { blasRef := p, transform := inst.mTransform, customIndex := p })

/-- The geometry instances a model contributes when its `k` partitions receive
the consecutive ordinals `p, p+1, ...`. -/
def instancesOfModelFrom (m : OrcaModel) : Nat → Nat → List GeometryInstance
  | _, 0 => []
  | p, k + 1 => instBlock m p ++ instancesOfModelFrom m (p + 1) k

/-- The geometry instances of a whole scene, with `p` the first free partition
ordinal. -/
def instancesOfModels : Nat → List OrcaModel → List GeometryInstance
  | _, [] => []
  | p, m :: ms =>
      instancesOfModelFrom m p m.distinctMaterials.length ++
        instancesOfModels (p + m.distinctMaterials.length) ms

/-- All partitions of the scene, in creation order. -/
def allPartitions : List OrcaModel → List MaterialGroup
  | [] => []
  | m :: ms => m.distinctMaterials ++ allPartitions ms

/-- Total number of partitions (= distinct (model, material) groups) of the
scene. -/
def totalPartitionsOf : List OrcaModel → Nat
  | [] => 0
  | m :: ms => m.distinctMaterials.length + totalPartitionsOf ms

/-- The name/range bookkeeping entries, with `g` the number of geometry
instances already recorded. -/
def rangesOfModels : Nat → List OrcaModel → List (String × Int × Int)
  | _, [] => []
  | g, m :: ms =>
      (m.mName, (g : Int),
        ((g + m.distinctMaterials.length * m.mInstances.length : Nat) : Int)) ::
        rangesOfModels (g + m.distinctMaterials.length * m.mInstances.length) ms

/- ------------------------------------------------------------------ -/
/- Custom-index structure of the instance list                         -/
/- ------------------------------------------------------------------ -/

/-- The custom-index sequence one model contributes: its `k` partition
ordinals `p, p+1, ...`, each repeated once per placed instance (`n` copies). -/
def customIndexSeqOfModel (n : Nat) : Nat → Nat → List Nat
  | _, 0 => []
  | p, k + 1 => List.replicate n p ++ customIndexSeqOfModel n (p + 1) k

/-- The custom-index sequence of the whole scene in creation order. -/
def customIndexSeq : Nat → List OrcaModel → List Nat
  | _, [] => []
  | p, m :: ms =>
      customIndexSeqOfModel m.mInstances.length p m.distinctMaterials.length ++
        customIndexSeq (p + m.distinctMaterials.length) ms

/- ------------------------------------------------------------------ -/
/- Application setup after ingestion (main.cpp lines 95-152)          -/
/- ------------------------------------------------------------------ -/

/-- GPU-compatible material record produced from one `gvk::material_config`. -/
structure GpuMaterial where
  fromConfig : Nat
  deriving DecidableEq, Repr

/-- Modelled from the spec: `gvk::convert_for_gpu_usage` is framework code not
contained in this repository's sources; §4.5 specifies it as converting the
gathered material-descriptor list into a packed GPU array (plus image/sampler
resources) with index `i` of the packed array corresponding to partition `i`
in creation order, i.e. an order-preserving element-wise conversion. -/
def convertForGpuUsage (materialData : List Nat) : List GpuMaterial :=
  materialData.map (fun cfg => { fromConfig := cfg })

/-- The single mutable top-level acceleration structure
(`create_top_level_acceleration_structure` + `build`, main.cpp lines 116-120). -/
structure Tlas where
  capacity : Nat
  allowUpdates : Bool
  builtOver : List GeometryInstance
  deriving DecidableEq, Repr

/-- Shader stages of `avk::shader_type` flags used by this application. -/
structure ShaderStageFlags where
  rayGeneration : Bool
  closestHit : Bool
  missShader : Bool
  deriving DecidableEq, Repr

/-- A resource bound through a descriptor. -/
inductive BoundResource where
  | imageSamplers (handles : List Nat)
  | storageBuffer (handle : Nat)
  | uniformTexelBufferViews (handles : List Nat)
  | storageImage (viewHandle : Nat)
  | topLevelStructure (t : Tlas)
  deriving DecidableEq, Repr

/-- One `avk::descriptor_binding(set, binding, resource)` entry. -/
structure DescriptorBinding where
  setIndex : Nat
  bindingIndex : Nat
  resource : BoundResource
  deriving DecidableEq, Repr

/-- The descriptor bindings declared both at pipeline creation (main.cpp lines
142-148) and when building the per-frame descriptor sets (lines 278-284); the
two source lists are textually identical. -/
def sceneBindings (imageSamplers : List Nat) (materialBuffer : Nat)
    (idxViews texViews nrmViews : List Nat) (offscreenView : Nat) (tlas : Tlas) :
    List DescriptorBinding :=
  [ { setIndex := 0, bindingIndex := 0, resource := .imageSamplers imageSamplers }
  , { setIndex := 0, bindingIndex := 1, resource := .storageBuffer materialBuffer }
  , { setIndex := 0, bindingIndex := 2, resource := .uniformTexelBufferViews idxViews }
  , { setIndex := 0, bindingIndex := 3, resource := .uniformTexelBufferViews texViews }
  , { setIndex := 0, bindingIndex := 4, resource := .uniformTexelBufferViews nrmViews }
  , { setIndex := 1, bindingIndex := 0, resource := .storageImage offscreenView }
  , { setIndex := 2, bindingIndex := 0, resource := .topLevelStructure tlas } ]

/-- The ray tracing pipeline configuration
(`create_ray_tracing_pipeline_for`, main.cpp lines 131-149). -/
structure RayTracingPipeline where
  shaderTable : List String
  maxRecursionDepth : Nat
  pushConstantStages : ShaderStageFlags
  pushConstantOffset : Nat
  bindings : List DescriptorBinding
  deriving DecidableEq, Repr

/-- The state of `fluid_nightmare_main` once `initialize` has run: the filled
ingestion members plus the converted materials, the top-level structure, the
offscreen render target (created at the main window's resolution, lines
123-128) and the pipeline. -/
structure AppState where
  scene : IngestState
  gpuMaterials : List GpuMaterial
  mImageSamplers : List Nat
  mMaterialBuffer : Nat
  mTlas : Tlas
  windowWidth : Nat
  windowHeight : Nat
  offscreenWidth : Nat
  offscreenHeight : Nat
  mOffscreenImageView : Nat
  mPipeline : RayTracingPipeline
  mQueue : Nat
  deriving DecidableEq, Repr

/-- `fluid_nightmare_main::initialize` after the ingestion loop: convert the
gathered materials for GPU usage, upload them into `mMaterialBuffer`, build
the top-level structure with capacity `mGeometryInstances.size()` over the
full instance list, create the offscreen image at the window's resolution and
create the ray tracing pipeline.  Handle tokens: the material buffer and the
offscreen image view each are the first object of their kind (handle 0); the
image samplers are identified by the material configs they were generated
from. -/
def appSetup (models : List OrcaModel) (windowWidth windowHeight : Nat)
    (maxRecursionDepth : Nat) (queue : Nat) : AppState :=
  let st := ingest models
  let tlas : Tlas :=
    { capacity := st.mGeometryInstances.length
      allowUpdates := true
      builtOver := st.mGeometryInstances }
  { scene := st
    gpuMaterials := convertForGpuUsage st.materialData
    mImageSamplers := st.materialData
    mMaterialBuffer := 0
    mTlas := tlas
    windowWidth := windowWidth
    windowHeight := windowHeight
    offscreenWidth := windowWidth
    offscreenHeight := windowHeight
    mOffscreenImageView := 0
    mPipeline :=
      { shaderTable :=
          [ "shaders/ray_gen_shader.rgen"
          , "shaders/closest_hit_shader.rchit"
          , "shaders/miss_shader.rmiss" ]
        maxRecursionDepth := maxRecursionDepth
        pushConstantStages :=
          { rayGeneration := true, closestHit := true, missShader := false }
        pushConstantOffset := 0
        bindings := sceneBindings st.materialData 0 st.mIndexBufferViews
          st.mTexCoordsBufferViews st.mNormalsBufferViews 0 tlas }
    mQueue := queue }

/- ------------------------------------------------------------------ -/
/- Per-frame rendering (fluid_nightmare_main::render, lines 268-331)  -/
/- ------------------------------------------------------------------ -/

/-- Modelled from the spec: the `push_const_data` struct is declared in
`cpu_to_gpu_data_types.hpp`, which is not among the sources; §6 fixes its
layout as a 4x4 camera-to-world matrix, the half field-of-view angle, three
reserved float slots, and a 4-component light direction.  The aggregate
initializer in `fluid_nightmare_main::render` (main.cpp lines 288-292) matches
exactly this field order.  Float scalars are modelled as rationals; the camera
matrix is carried as a token since no verified property inspects its entries. -/
structure PushConstData where
  mCameraTransform : Nat
  mHalfFovAngle : ℚ
  pad0 : ℚ
  pad1 : ℚ
  pad2 : ℚ
  mLightDir : ℚ × ℚ × ℚ × ℚ
  deriving DecidableEq, Repr

/-- `glm::radians`: degrees times pi over 180.  The (irrational) value of pi is
passed as a parameter; every verified property is parametric in it. -/
def glmRadians (piVal : ℚ) (degrees : ℚ) : ℚ :=
  degrees * (piVal / 180)

/-- The per-frame inputs `render` reads: the camera's global transformation
matrix (token), `mFieldOfViewForRayTracing` (degrees), the normalized
`mLightDir`, the window's current backbuffer image and the image-available
semaphore consumed for this frame. -/
structure FrameContext where
  cameraMatrix : Nat
  fieldOfViewDegrees : ℚ
  lightDir : ℚ × ℚ × ℚ
  currentBackbufferImage : Nat
  imageAvailableSemaphore : Nat
  deriving DecidableEq, Repr

/-- `pushConstantsForThisDrawCall` (main.cpp lines 288-292):
the camera matrix, `glm::radians(mFieldOfViewForRayTracing) * 0.5f`, three
zero floats, and `glm::vec4{mLightDir, 0.0f}`. -/
def mkPushConstants (piVal : ℚ) (fc : FrameContext) : PushConstData :=
  { mCameraTransform := fc.cameraMatrix
    mHalfFovAngle := glmRadians piVal fc.fieldOfViewDegrees * (1 / 2)
    pad0 := 0
    pad1 := 0
    pad2 := 0
    mLightDir := (fc.lightDir.1, fc.lightDir.2.1, fc.lightDir.2.2, 0) }

/-- Pipeline stages named in the two barriers of `render`. -/
inductive PipelineStage where
  | rayTracingShaders
  | transfer
  | colorAttachmentOutput
  deriving DecidableEq, Repr

/-- Memory access masks named in the two barriers of `render`. -/
inductive MemoryAccess where
  | shaderBuffersAndImagesWrite
  | transferRead
  | transferWrite
  | colorAttachmentWrite
  deriving DecidableEq, Repr

/-- The commands `render` records into the one-time-submit command buffer,
in recording order. -/
inductive RecordedCommand where
  | bindPipeline (p : RayTracingPipeline)
  | bindDescriptors (sets : List DescriptorBinding)
  | writePushConstants (stages : ShaderStageFlags) (data : PushConstData)
  | traceRays (width height : Nat)
  | globalMemoryBarrier (srcStage dstStage : PipelineStage)
      (srcAccess dstAccess : MemoryAccess)
  | copyImageToAnother (srcImage dstImage : Nat)
  | endRecording
  deriving DecidableEq, Repr

/-- A recorded command buffer together with its submission: the single queue
it is submitted to and the semaphore the submission waits on. -/
structure SubmittedFrame where
  commands : List RecordedCommand
  queue : Nat
  waitSemaphore : Nat
  deriving DecidableEq, Repr

/-- `fluid_nightmare_main::render`: bind the pipeline, bind the descriptor
sets built from the current resource bindings, write the push constants
(visible to the ray-generation and closest-hit stages), trace rays for each
pixel of the main window, barrier ray-tracing writes against transfer reads,
copy the offscreen image into image 0 of the current backbuffer, barrier
transfer writes against color-attachment writes, end recording, and submit to
the single queue waiting on the current image-available semaphore. -/
def renderFrame (piVal : ℚ) (app : AppState) (fc : FrameContext) : SubmittedFrame :=
  { commands :=
      [ .bindPipeline app.mPipeline
      , .bindDescriptors (sceneBindings app.mImageSamplers app.mMaterialBuffer
          app.scene.mIndexBufferViews app.scene.mTexCoordsBufferViews
          app.scene.mNormalsBufferViews app.mOffscreenImageView app.mTlas)
      , .writePushConstants
          { rayGeneration := true, closestHit := true, missShader := false }
          (mkPushConstants piVal fc)
      , .traceRays app.windowWidth app.windowHeight
      , .globalMemoryBarrier .rayTracingShaders .transfer
          .shaderBuffersAndImagesWrite .transferRead
      , .copyImageToAnother app.mOffscreenImageView fc.currentBackbufferImage
      , .globalMemoryBarrier .transfer .colorAttachmentOutput
          .transferWrite .colorAttachmentWrite
      , .endRecording ]
    queue := app.mQueue
    waitSemaphore := fc.imageAvailableSemaphore }

/- ------------------------------------------------------------------ -/
/- Transform-update window (fluid_nightmare_main::update, 201-266)    -/
/- ------------------------------------------------------------------ -/

/-- The directional-key state `update` polls
(arrow keys and page up/down, main.cpp line 205). -/
structure DirectionalKeys where
  left : Bool
  right : Bool
  pageDown : Bool
  pageUp : Bool
  up : Bool
  down : Bool
  deriving DecidableEq, Repr

/-- The disjunction of `key_down` polls on line 205. -/
def anyDirectionalKeyDown (keys : DirectionalKeys) : Bool :=
  keys.left || keys.right || keys.pageDown || keys.pageUp || keys.up || keys.down

/-- A top-level-structure update command, as the commented-out body of
`update` would issue it (`mTLAS[inFlightIndex]->update(mGeometryInstances,...)`). -/
structure TlasUpdateCmd where
  inFlightIndex : Nat
  deriving DecidableEq, Repr

/-- One call of `fluid_nightmare_main::update` for a given frame number:
if any directional key is down, set
`updateUntilFrame = current_frame() + number_of_frames_in_flight() - 1`;
then test `current_frame() <= updateUntilFrame` -- the entire body of that
conditional (the transform change and the TLAS update-build) is commented out
in the source, so no top-level-structure update command is ever issued.
Returns the new `updateUntilFrame` (a function-local `static`, initially -1)
and the list of TLAS update commands issued this frame. -/
def updateStep (framesInFlight : Nat) (currentFrame : Nat) (keys : DirectionalKeys)
    (updateUntilFrame : Int) : Int × List TlasUpdateCmd :=
  let u : Int :=
    if anyDirectionalKeyDown keys then
      (currentFrame : Int) + (framesInFlight : Int) - 1
    else updateUntilFrame
  if (currentFrame : Int) ≤ u then
    (u, [])
  else
    (u, [])

/-- The condition of main.cpp line 209, deciding whether this frame falls into
the span in which the (disabled) TLAS update would be issued. -/
def tlasUpdateWindowActive (framesInFlight : Nat) (currentFrame : Nat)
    (keys : DirectionalKeys) (updateUntilFrame : Int) : Bool :=
  let u : Int :=
    if anyDirectionalKeyDown keys then
      (currentFrame : Int) + (framesInFlight : Int) - 1
    else updateUntilFrame
  decide ((currentFrame : Int) ≤ u)

/-- Run `update` over consecutive frames `0, 1, ...`, threading the static
`updateUntilFrame` through, and record for every frame whether the update
window was active and which TLAS update commands were issued. -/
def runUpdates (framesInFlight : Nat) : Nat → Int → List DirectionalKeys →
    List (Bool × List TlasUpdateCmd)
  | _, _, [] => []
  | frame, u, keys :: rest =>
      let r := updateStep framesInFlight frame keys u
      (tlasUpdateWindowActive framesInFlight frame keys u, r.2) ::
        runUpdates framesInFlight (frame + 1) r.1 rest

/- ------------------------------------------------------------------ -/
/- Resize / shader-reload coordination (main.cpp lines 154-173)       -/
/- ------------------------------------------------------------------ -/

/-- One cached descriptor set of `mDescriptorCache`, keyed by the image-view
handle it references (this is the key `remove_sets_with_handle` matches on). -/
structure CachedSet where
  setId : Nat
  keyedHandle : Nat
  deriving DecidableEq, Repr

/-- The live resources the updater registrations act on, plus the descriptor
cache and the views whose destruction is deferred.  `nextHandle` provides
fresh identities for rebuilt resources. -/
structure LiveResources where
  mPositionsBufferViews : List Nat
  mIndexBufferViews : List Nat
  mNormalsBufferViews : List Nat
  mTexCoordsBufferViews : List Nat
  mBlas : List Nat
  mTlas : Tlas
  rtWidth : Nat
  rtHeight : Nat
  rtView : Nat
  pipelineGen : Nat
  pipelineRtRef : Nat
  cachedSets : List CachedSet
  pendingOldViews : List Nat
  nextHandle : Nat
  deriving DecidableEq, Repr

/-- What a registration may rebuild, in execution order. -/
inductive RebuildAction where
  | rebuildRenderTarget (width height : Nat)
  | rebuildPipeline
  deriving DecidableEq, Repr

/-- Modelled from the spec: the semantics of the gvk updater is framework code
not contained in this repository's sources.  Per §4.8 and §4.6, resources
listed in an `.update(...)` registration are rebuilt in the listed order when
the trigger fires, and a superseded resource is destroyed only once no
in-flight frame may still reference it.  This function embeds the registration
`mUpdater->on(swapchain_resized_event(main_window())).update(mOffscreenImageView, mPipeline)`
(main.cpp lines 166-167): rebuild the offscreen render target at the new
dimensions first, then rebuild the pipeline so that its descriptor binding
references the new view; the superseded view joins the deferred-destruction
list. -/
def onSwapchainResized (newWidth newHeight : Nat) (st : LiveResources) :
    LiveResources × List RebuildAction :=
  let newView := st.nextHandle
  let newPipeline := st.nextHandle + 1
  ( { st with
      rtWidth := newWidth
      rtHeight := newHeight
      rtView := newView
      pipelineGen := newPipeline
      pipelineRtRef := newView
      pendingOldViews := st.pendingOldViews ++ [st.rtView]
      nextHandle := st.nextHandle + 2 }
  , [RebuildAction.rebuildRenderTarget newWidth newHeight, RebuildAction.rebuildPipeline] )

/-- `mDescriptorCache.remove_sets_with_handle(handle)` for every handle in the
given list: drop every cached set keyed by one of them. -/
def removeSetsWithHandles (handles : List Nat) (sets : List CachedSet) : List CachedSet :=
  sets.filter (fun s => !(handles.contains s.keyedHandle))

/-- Modelled from the spec: once no in-flight frame references a superseded
view any more, the framework destroys it and fires
`destroying_image_view_event`; the registered callback (main.cpp lines
168-171) then removes every cached descriptor set keyed by the destroyed
view's handle from `mDescriptorCache`. -/
def retireInFlightFrames (st : LiveResources) : LiveResources :=
  { st with
    cachedSets := removeSetsWithHandles st.pendingOldViews st.cachedSets
    pendingOldViews := [] }

/-- Modelled from the spec: this embeds the registration
`mUpdater->on(shader_files_changed_event(mPipeline)).update(mPipeline)`
(main.cpp lines 160-161): on a shader-source change only the pipeline object
is rebuilt (fresh identity, its descriptor declaration referencing the
unchanged render target); every other resource is left untouched. -/
def onShaderFilesChanged (st : LiveResources) : LiveResources × List RebuildAction :=
  ( { st with
      pipelineGen := st.nextHandle
      pipelineRtRef := st.rtView
      nextHandle := st.nextHandle + 1 }
  , [RebuildAction.rebuildPipeline] )

/- ------------------------------------------------------------------ -/
/- Concrete scenes and states used for counterexamples and witnesses   -/
/- ------------------------------------------------------------------ -/

/-- A scene with a single model that has one distinct material and two placed
instances. -/
def duoScene : List OrcaModel :=
  [ { mName := "duo"
      distinctMaterials := [{ materialConfig := 7, meshIndices := [0] }]
      mInstances := [{ mTransform := 11 }, { mTransform := 12 }] } ]

/-- A scene with two models: model A has one distinct material and two placed
instances, model B has one distinct material and one placed instance. -/
def twoModelScene : List OrcaModel :=
  [ { mName := "A"
      distinctMaterials := [{ materialConfig := 1, meshIndices := [0] }]
      mInstances := [{ mTransform := 1 }, { mTransform := 2 }] }
  , { mName := "B"
      distinctMaterials := [{ materialConfig := 2, meshIndices := [0] }]
      mInstances := [{ mTransform := 3 }] } ]

/-- The key state with only the left arrow key held down. -/
def leftKeyDown : DirectionalKeys :=
  { left := true, right := false, pageDown := false
    pageUp := false, up := false, down := false }

/-- The key state with no directional key held down. -/
def quietKeys : DirectionalKeys :=
  { left := false, right := false, pageDown := false
    pageUp := false, up := false, down := false }

/-- A small live-resource state: render target view 0, pipeline 1, one cached
descriptor set keyed by view 0, nothing pending, next fresh handle 2. -/
def demoLive : LiveResources :=
  { mPositionsBufferViews := [0]
    mIndexBufferViews := [0]
    mNormalsBufferViews := [0]
    mTexCoordsBufferViews := [0]
    mBlas := [0]
    mTlas := { capacity := 1, allowUpdates := true, builtOver := [] }
    rtWidth := 4
    rtHeight := 4
    rtView := 0
    pipelineGen := 1
    pipelineRtRef := 0
    cachedSets := [{ setId := 9, keyedHandle := 0 }]
    pendingOldViews := []
    nextHandle := 2 }


/- ------------------------------------------------------------------ -/
/- Helper lemmas                                                       -/
/- ------------------------------------------------------------------ -/

@[simp]
theorem ordinals_length (p k : Nat) : (ordinals p k).length = k := by
  induction k generalizing p with
  | zero => rfl
  | succ k ih => simp [ordinals, ih]

@[simp]
theorem instBlock_length (m : OrcaModel) (p : Nat) :
    (instBlock m p).length = m.mInstances.length := by
  simp [instBlock]

@[simp]
theorem instancesOfModelFrom_length (m : OrcaModel) (p k : Nat) :
    (instancesOfModelFrom m p k).length = k * m.mInstances.length := by
  induction k generalizing p with
  | zero => simp [instancesOfModelFrom]
  | succ k ih => simp [instancesOfModelFrom, ih, Nat.succ_mul, Nat.add_comm]

theorem ordinals_append (p k j : Nat) :
    ordinals p k ++ ordinals (p + k) j = ordinals p (k + j) := by
  induction k generalizing p with
  | zero => simp [ordinals]
  | succ k ih =>
      simp only [ordinals, List.cons_append]
      rw [show p + (k + 1) = (p + 1) + k by omega, ih]
      simp [ordinals, Nat.succ_add]

/-- Closed form of the inner partition loop, for any start state whose four
buffer-view arrays are aligned with the BLAS list. -/
theorem foldl_processPartition (m : OrcaModel) (parts : List MaterialGroup)
    (st : IngestState)
    (h1 : st.mPositionsBufferViews.length = st.mBlas.length)
    (h2 : st.mIndexBufferViews.length = st.mBlas.length)
    (h3 : st.mNormalsBufferViews.length = st.mBlas.length)
    (h4 : st.mTexCoordsBufferViews.length = st.mBlas.length) :
    parts.foldl (processPartition m) st =
      { materialData := st.materialData ++ parts.map (fun part => part.materialConfig)
        mBlasNamesAndRanges := st.mBlasNamesAndRanges
        mBlas := st.mBlas ++ ordinals st.mBlas.length parts.length
        mGeometryInstances := st.mGeometryInstances ++
          instancesOfModelFrom m st.mBlas.length parts.length
        mPositionsBufferViews :=
          st.mPositionsBufferViews ++ ordinals st.mBlas.length parts.length
        mIndexBufferViews := st.mIndexBufferViews ++ ordinals st.mBlas.length parts.length
        mNormalsBufferViews := st.mNormalsBufferViews ++ ordinals st.mBlas.length parts.length
        mTexCoordsBufferViews :=
          st.mTexCoordsBufferViews ++ ordinals st.mBlas.length parts.length } := by
  induction parts generalizing st with
  | nil => simp [ordinals, instancesOfModelFrom]
  | cons part parts ih =>
      rw [List.foldl_cons,
        ih (processPartition m st part)
          (by simp [processPartition]; omega)
          (by simp [processPartition]; omega)
          (by simp [processPartition]; omega)
          (by simp [processPartition]; omega)]
      simp only [processPartition, List.length_append, List.length_cons,
        List.length_map, List.map_cons, List.length_singleton]
      rw [h1, h2, h3, h4]
      simp [ordinals, instancesOfModelFrom, instBlock, List.append_assoc]

/-- Closed form of one iteration of the outer model loop. -/
theorem processModel_eq (st : IngestState) (m : OrcaModel)
    (h1 : st.mPositionsBufferViews.length = st.mBlas.length)
    (h2 : st.mIndexBufferViews.length = st.mBlas.length)
    (h3 : st.mNormalsBufferViews.length = st.mBlas.length)
    (h4 : st.mTexCoordsBufferViews.length = st.mBlas.length) :
    processModel st m =
      { materialData :=
          st.materialData ++ m.distinctMaterials.map (fun part => part.materialConfig)
        mBlasNamesAndRanges := st.mBlasNamesAndRanges ++
          [(m.mName, (st.mGeometryInstances.length : Int),
            ((st.mGeometryInstances.length +
              m.distinctMaterials.length * m.mInstances.length : Nat) : Int))]
        mBlas := st.mBlas ++ ordinals st.mBlas.length m.distinctMaterials.length
        mGeometryInstances := st.mGeometryInstances ++
          instancesOfModelFrom m st.mBlas.length m.distinctMaterials.length
        mPositionsBufferViews :=
          st.mPositionsBufferViews ++ ordinals st.mBlas.length m.distinctMaterials.length
        mIndexBufferViews :=
          st.mIndexBufferViews ++ ordinals st.mBlas.length m.distinctMaterials.length
        mNormalsBufferViews :=
          st.mNormalsBufferViews ++ ordinals st.mBlas.length m.distinctMaterials.length
        mTexCoordsBufferViews :=
          st.mTexCoordsBufferViews ++ ordinals st.mBlas.length m.distinctMaterials.length } := by
  simp only [processModel]
  rw [foldl_processPartition m m.distinctMaterials _ (by simpa using h1) (by simpa using h2)
    (by simpa using h3) (by simpa using h4)]
  simp

@[simp]
theorem instancesOfModels_length (p : Nat) (ms : List OrcaModel) :
    (instancesOfModels p ms).length =
      (ms.map (fun m => m.distinctMaterials.length * m.mInstances.length)).sum := by
  induction ms generalizing p with
  | nil => rfl
  | cons m ms ih => simp [instancesOfModels, ih]

/-- Closed form of the fold over all models, for any aligned start state. -/
theorem foldl_processModel (models : List OrcaModel) (st : IngestState)
    (h1 : st.mPositionsBufferViews.length = st.mBlas.length)
    (h2 : st.mIndexBufferViews.length = st.mBlas.length)
    (h3 : st.mNormalsBufferViews.length = st.mBlas.length)
    (h4 : st.mTexCoordsBufferViews.length = st.mBlas.length) :
    models.foldl processModel st =
      { materialData :=
          st.materialData ++ (allPartitions models).map (fun part => part.materialConfig)
        mBlasNamesAndRanges := st.mBlasNamesAndRanges ++
          rangesOfModels st.mGeometryInstances.length models
        mBlas := st.mBlas ++ ordinals st.mBlas.length (totalPartitionsOf models)
        mGeometryInstances := st.mGeometryInstances ++
          instancesOfModels st.mBlas.length models
        mPositionsBufferViews :=
          st.mPositionsBufferViews ++ ordinals st.mBlas.length (totalPartitionsOf models)
        mIndexBufferViews :=
          st.mIndexBufferViews ++ ordinals st.mBlas.length (totalPartitionsOf models)
        mNormalsBufferViews :=
          st.mNormalsBufferViews ++ ordinals st.mBlas.length (totalPartitionsOf models)
        mTexCoordsBufferViews :=
          st.mTexCoordsBufferViews ++ ordinals st.mBlas.length (totalPartitionsOf models) } := by
  induction models generalizing st with
  | nil => simp [allPartitions, rangesOfModels, ordinals, instancesOfModels, totalPartitionsOf]
  | cons m ms ih =>
      rw [List.foldl_cons, processModel_eq st m h1 h2 h3 h4,
        ih _ (by simp; omega) (by simp; omega) (by simp; omega) (by simp; omega)]
      simp only [List.length_append, ordinals_length, instancesOfModelFrom_length,
        List.append_assoc, allPartitions, List.map_append, totalPartitionsOf,
        instancesOfModels, rangesOfModels]
      simp [ordinals_append, List.singleton_append]

/-- Grand closed form of the complete ingestion: every member vector of
`fluid_nightmare_main` after the ingestion loop, as a function of the scene. -/
theorem ingest_eq (models : List OrcaModel) :
    ingest models =
      { materialData := (allPartitions models).map (fun part => part.materialConfig)
        mBlasNamesAndRanges := rangesOfModels 0 models
        mBlas := ordinals 0 (totalPartitionsOf models)
        mGeometryInstances := instancesOfModels 0 models
        mPositionsBufferViews := ordinals 0 (totalPartitionsOf models)
        mIndexBufferViews := ordinals 0 (totalPartitionsOf models)
        mNormalsBufferViews := ordinals 0 (totalPartitionsOf models)
        mTexCoordsBufferViews := ordinals 0 (totalPartitionsOf models) } := by
  unfold ingest
  rw [foldl_processModel models IngestState.emptyState rfl rfl rfl rfl]
  rfl

theorem instBlock_map_customIndex (m : OrcaModel) (p : Nat) :
    (instBlock m p).map (fun gi => gi.customIndex) =
      List.replicate m.mInstances.length p := by
  simp only [instBlock, List.map_map]
  generalize m.mInstances = l
  induction l with
  | nil => rfl
  | cons inst insts ih => simp [List.replicate_succ, ih]

theorem instancesOfModelFrom_map_customIndex (m : OrcaModel) (p k : Nat) :
    (instancesOfModelFrom m p k).map (fun gi => gi.customIndex) =
      customIndexSeqOfModel m.mInstances.length p k := by
  induction k generalizing p with
  | zero => rfl
  | succ k ih =>
      simp [instancesOfModelFrom, customIndexSeqOfModel, ih, instBlock_map_customIndex]

theorem instancesOfModels_map_customIndex (p : Nat) (ms : List OrcaModel) :
    (instancesOfModels p ms).map (fun gi => gi.customIndex) = customIndexSeq p ms := by
  induction ms generalizing p with
  | nil => rfl
  | cons m ms ih =>
      simp [instancesOfModels, customIndexSeq, ih, instancesOfModelFrom_map_customIndex]

theorem mem_instancesOfModelFrom {gi : GeometryInstance} {m : OrcaModel} {p k : Nat}
    (h : gi ∈ instancesOfModelFrom m p k) :
    gi.customIndex = gi.blasRef ∧ p ≤ gi.customIndex ∧ gi.customIndex < p + k := by
  induction k generalizing p with
  | zero => simp [instancesOfModelFrom] at h
  | succ k ih =>
      simp only [instancesOfModelFrom, List.mem_append] at h
      rcases h with h | h
      · simp only [instBlock, List.mem_map] at h
        obtain ⟨inst, _, rfl⟩ := h
        refine ⟨rfl, Nat.le_refl _, ?_⟩
        show p < p + (k + 1)
        omega
      · obtain ⟨e, le, lt⟩ := ih h
        exact ⟨e, by omega, by omega⟩

theorem mem_instancesOfModels {gi : GeometryInstance} {p : Nat} {ms : List OrcaModel}
    (h : gi ∈ instancesOfModels p ms) :
    gi.customIndex = gi.blasRef ∧ p ≤ gi.customIndex ∧
      gi.customIndex < p + totalPartitionsOf ms := by
  induction ms generalizing p with
  | nil => simp [instancesOfModels] at h
  | cons m ms ih =>
      simp only [instancesOfModels, List.mem_append] at h
      rcases h with h | h
      · obtain ⟨e, le, lt⟩ := mem_instancesOfModelFrom h
        exact ⟨e, le, by simp [totalPartitionsOf]; omega⟩
      · obtain ⟨e, le, lt⟩ := ih h
        refine ⟨e, by omega, by simp [totalPartitionsOf]; omega⟩

theorem mem_removeSetsWithHandles {s : CachedSet} {handles : List Nat}
    {sets : List CachedSet} (h : s ∈ removeSetsWithHandles handles sets) :
    s ∈ sets ∧ s.keyedHandle ∉ handles := by
  simp only [removeSetsWithHandles, List.mem_filter, Bool.not_eq_true'] at h
  refine ⟨h.1, fun hmem => ?_⟩
  have hc : handles.contains s.keyedHandle = true := List.elem_iff.mpr hmem
  rw [h.2] at hc
  exact Bool.false_ne_true hc

theorem allPartitions_length (ms : List OrcaModel) :
    (allPartitions ms).length = totalPartitionsOf ms := by
  induction ms with
  | nil => rfl
  | cons m tail ih => simp [allPartitions, totalPartitionsOf, ih]

theorem sum_map_const {α : Type} (l : List α) (k : Nat) :
    (l.map (fun _ => k)).sum = k * l.length := by
  induction l with
  | nil => simp
  | cons a tail ih => simp [ih]; ring

theorem sum_partition_counts (models : List OrcaModel) :
    (models.map (fun m => (m.mInstances.map
        (fun _ => m.distinctMaterials.length)).sum)).sum =
      (models.map (fun m => m.distinctMaterials.length * m.mInstances.length)).sum := by
  induction models with
  | nil => rfl
  | cons m ms ih => simp only [List.map_cons, List.sum_cons, sum_map_const, ih]

/- ------------------------------------------------------------------ -/
/- Claim theorems                                                      -/
/- ------------------------------------------------------------------ -/

/-- C1, counterexample: the claim that the custom indices taken over all N
GeometryInstances in creation order form exactly the strictly increasing
sequence 0..N-1 is false.  In a scene with one model that has one distinct
material and two placed instances, ingestion creates two GeometryInstances
whose custom indices are [0, 0], not [0, 1]: `set_custom_index` receives the
buffer-view-array position of the partition, which is shared by all instances
of that partition. -/
theorem claim_c1_counterexample :
    ¬ ((ingest duoScene).mGeometryInstances.map (fun gi => gi.customIndex) =
        List.range (ingest duoScene).mGeometryInstances.length) := by
  decide

/-- C1, amended: the custom indices assigned by the instance-assembly loop,
taken over all GeometryInstances in creation order, form the sequence that
gives every instance the buffer-view-array position of the partition it was
created from: partition ordinals 0..P-1 in creation order (matching the
buffer-view append order, whose arrays have length P), each repeated once per
placed instance of the owning model, and always equal to the instance's
bottom-level-structure ordinal.  They are unique and dense over the
partitions, not over the instances. -/
theorem claim_c1_amended (models : List OrcaModel) :
    (ingest models).mGeometryInstances.map (fun gi => gi.customIndex) =
      customIndexSeq 0 models ∧
    (ingest models).mTexCoordsBufferViews.length = totalPartitionsOf models ∧
    ((ingest models).mGeometryInstances.all
      (fun gi => gi.customIndex == gi.blasRef)) = true := by
  rw [ingest_eq]
  refine ⟨instancesOfModels_map_customIndex 0 models, by simp, ?_⟩
  simp only [List.all_eq_true]
  intro gi hgi
  have h := @mem_instancesOfModels gi 0 models hgi
  simpa using h.1

/-- C2: the number of GeometryInstance records equals the sum, over all models
and each of their placed instances, of that model's partition count, and the
top-level structure is allocated with instance capacity exactly that count and
built over the full instance list. -/
theorem claim_c2 (models : List OrcaModel) (winW winH d q : Nat) :
    (appSetup models winW winH d q).scene.mGeometryInstances.length =
      (models.map (fun m =>
        (m.mInstances.map (fun _ => m.distinctMaterials.length)).sum)).sum ∧
    (appSetup models winW winH d q).mTlas.capacity =
      (appSetup models winW winH d q).scene.mGeometryInstances.length ∧
    (appSetup models winW winH d q).mTlas.builtOver =
      (appSetup models winW winH d q).scene.mGeometryInstances := by
  refine ⟨?_, rfl, rfl⟩
  show (ingest models).mGeometryInstances.length = _
  rw [ingest_eq, sum_partition_counts]
  simp

/-- C3: the packed material array produced from the gathered material data has
one entry per distinct (model, material) partition, and entry i is the
(converted) material of partition i in partition creation order. -/
theorem claim_c3 (models : List OrcaModel) (winW winH d q : Nat) :
    (appSetup models winW winH d q).gpuMaterials.length = totalPartitionsOf models ∧
    (appSetup models winW winH d q).gpuMaterials =
      (allPartitions models).map
        (fun part => { fromConfig := part.materialConfig }) ∧
    (appSetup models winW winH d q).gpuMaterials.length =
      (allPartitions models).length := by
  have hm : (appSetup models winW winH d q).gpuMaterials =
      (allPartitions models).map
        (fun part => ({ fromConfig := part.materialConfig } : GpuMaterial)) := by
    show convertForGpuUsage (ingest models).materialData = _
    rw [ingest_eq]
    simp [convertForGpuUsage, List.map_map]
  refine ⟨?_, hm, ?_⟩
  · rw [hm]
    simp [allPartitions_length]
  · rw [hm]
    simp

/-- C4, evaluation at the failing input: in the two-model scene, the
name-to-index-range map records the range [2, 3) for model B (the values
pushed are `mGeometryInstances.size()` before and after the model, i.e.
positions in the geometry-instance array), while the single GeometryInstance
derived from B's only partition carries custom index 1 -- the custom index is
a buffer-view/partition ordinal, a different index space -- and 1 does not lie
in [2, 3).  The code's own comments (main.cpp lines 41-42 and 368-369) state
that the recorded range refers to entries of `mBlas`, under which reading the
claimed containment would hold; the code records instance-array positions
instead. -/
theorem claim_c4_code_eval :
    (ingest twoModelScene).mBlasNamesAndRanges =
      [("A", (0 : Int), (2 : Int)), ("B", (2 : Int), (3 : Int))] ∧
    (ingest twoModelScene).mGeometryInstances.getLast? =
      some { blasRef := 1, transform := 3, customIndex := 1 } ∧
    ¬ ((2 : Int) ≤ (1 : Int) ∧ (1 : Int) < 3) := by
  decide

/-- C10: after ingestion the four buffer-view arrays, the bottom-level
structure list and the gathered material list all have one entry per
partition (equal lengths), and every GeometryInstance's custom index equals
the buffer-view-array ordinal of the partition it was created from (its
bottom-level-structure ordinal) and is strictly below the partition count,
hence a valid index into all the parallel arrays. -/
theorem claim_c10 (models : List OrcaModel) :
    (ingest models).mPositionsBufferViews.length = totalPartitionsOf models ∧
    (ingest models).mIndexBufferViews.length = totalPartitionsOf models ∧
    (ingest models).mNormalsBufferViews.length = totalPartitionsOf models ∧
    (ingest models).mTexCoordsBufferViews.length = totalPartitionsOf models ∧
    (ingest models).mBlas.length = totalPartitionsOf models ∧
    (ingest models).materialData.length = totalPartitionsOf models ∧
    ((ingest models).mGeometryInstances.all (fun gi =>
      gi.customIndex == gi.blasRef &&
        decide (gi.customIndex < totalPartitionsOf models))) = true := by
  rw [ingest_eq]
  refine ⟨by simp, by simp, by simp, by simp, by simp, ?_, ?_⟩
  · simp [allPartitions_length]
  · simp only [List.all_eq_true]
    intro gi hgi
    have h := @mem_instancesOfModels gi 0 models hgi
    simp only [Bool.and_eq_true, beq_iff_eq, decide_eq_true_eq]
    exact ⟨h.1, by omega⟩

/-- C5: the push-constant block written before the trace dispatch (the third
recorded command) consists of the camera-to-world matrix, then the half
field-of-view angle -- the UI's full field-of-view in degrees converted to
radians and multiplied by one half -- then three zeroed float slots, then the
light direction as a 4-component vector with zero w component; and it is
written with, and the pipeline declares it for, exactly the ray-generation and
closest-hit stages. -/
theorem claim_c5 (piVal : ℚ) (app : AppState) (fc : FrameContext)
    (models : List OrcaModel) (winW winH d q : Nat) :
    (renderFrame piVal app fc).commands[2]? =
      some (RecordedCommand.writePushConstants
        { rayGeneration := true, closestHit := true, missShader := false }
        { mCameraTransform := fc.cameraMatrix
          mHalfFovAngle := fc.fieldOfViewDegrees * (piVal / 180) * (1 / 2)
          pad0 := 0
          pad1 := 0
          pad2 := 0
          mLightDir := (fc.lightDir.1, fc.lightDir.2.1, fc.lightDir.2.2, 0) }) ∧
    (appSetup models winW winH d q).mPipeline.pushConstantStages =
      { rayGeneration := true, closestHit := true, missShader := false } :=
  ⟨rfl, rfl⟩

/-- C6: every frame's recorded command sequence is exactly: bind pipeline,
bind descriptors, write push constants, a trace-rays dispatch sized to the
render target's pixel dimensions (the offscreen target is created at the
window resolution the dispatch uses), a global barrier from ray-tracing write
to transfer read, a copy of the render target into the current backbuffer, a
second global barrier from transfer write to color-attachment write, end of
recording; the one submission goes to the single rendering queue and waits on
the surface's image-available semaphore. -/
theorem claim_c6 (models : List OrcaModel) (winW winH d q : Nat)
    (piVal : ℚ) (fc : FrameContext) :
    renderFrame piVal (appSetup models winW winH d q) fc =
      { commands :=
          [ RecordedCommand.bindPipeline (appSetup models winW winH d q).mPipeline
          , RecordedCommand.bindDescriptors (sceneBindings
              (appSetup models winW winH d q).mImageSamplers
              (appSetup models winW winH d q).mMaterialBuffer
              (appSetup models winW winH d q).scene.mIndexBufferViews
              (appSetup models winW winH d q).scene.mTexCoordsBufferViews
              (appSetup models winW winH d q).scene.mNormalsBufferViews
              (appSetup models winW winH d q).mOffscreenImageView
              (appSetup models winW winH d q).mTlas)
          , RecordedCommand.writePushConstants
              { rayGeneration := true, closestHit := true, missShader := false }
              (mkPushConstants piVal fc)
          , RecordedCommand.traceRays winW winH
          , RecordedCommand.globalMemoryBarrier PipelineStage.rayTracingShaders
              PipelineStage.transfer MemoryAccess.shaderBuffersAndImagesWrite
              MemoryAccess.transferRead
          , RecordedCommand.copyImageToAnother
              (appSetup models winW winH d q).mOffscreenImageView
              fc.currentBackbufferImage
          , RecordedCommand.globalMemoryBarrier PipelineStage.transfer
              PipelineStage.colorAttachmentOutput MemoryAccess.transferWrite
              MemoryAccess.colorAttachmentWrite
          , RecordedCommand.endRecording ]
        queue := q
        waitSemaphore := fc.imageAvailableSemaphore } ∧
    (appSetup models winW winH d q).offscreenWidth = winW ∧
    (appSetup models winW winH d q).offscreenHeight = winH :=
  ⟨rfl, rfl, rfl⟩

/-- C7, evaluation at the failing input: `updateStep` never issues a
top-level-structure update command in any frame (its entire update body is
commented out in the source), even though with 3 frames in flight and a
directional key pressed at frame 0 the window condition
`current_frame() <= updateUntilFrame` holds for exactly the 3 frames 0..2.
The claim says an update with the changed transforms is issued in each of
those frames. -/
theorem claim_c7_code_eval :
    (∀ (framesInFlight currentFrame : Nat) (keys : DirectionalKeys) (u : Int),
      (updateStep framesInFlight currentFrame keys u).2 = []) ∧
    runUpdates 3 0 (-1) [leftKeyDown, quietKeys, quietKeys, quietKeys, quietKeys] =
      [(true, []), (true, []), (true, []), (false, []), (false, [])] := by
  constructor
  · intro framesInFlight currentFrame keys u
    unfold updateStep
    dsimp only
    split <;> rw [ite_self]
  · decide

/-- C8: on a render-target resize the registration rebuilds the render target
at the new dimensions strictly before the pipeline whose descriptor binding
references it; once no in-flight frame references the superseded view any
more, every cached descriptor set keyed by its identity is removed; and
rebuilding twice at the same dimensions leaves the pipeline's descriptor
binding referencing only the latest render target, with no cached set keyed by
either superseded view. -/
theorem claim_c8 (st : LiveResources) (w h : Nat)
    (hFresh : st.rtView < st.nextHandle) :
    (onSwapchainResized w h st).2 =
      [RebuildAction.rebuildRenderTarget w h, RebuildAction.rebuildPipeline] ∧
    (retireInFlightFrames (onSwapchainResized w h
        (onSwapchainResized w h st).1).1).pipelineRtRef =
      (retireInFlightFrames (onSwapchainResized w h
        (onSwapchainResized w h st).1).1).rtView ∧
    (retireInFlightFrames (onSwapchainResized w h
        (onSwapchainResized w h st).1).1).rtWidth = w ∧
    (retireInFlightFrames (onSwapchainResized w h
        (onSwapchainResized w h st).1).1).rtHeight = h ∧
    (retireInFlightFrames (onSwapchainResized w h
        (onSwapchainResized w h st).1).1).rtView ≠ st.rtView ∧
    (retireInFlightFrames (onSwapchainResized w h
        (onSwapchainResized w h st).1).1).rtView ≠ (onSwapchainResized w h st).1.rtView ∧
    ((retireInFlightFrames (onSwapchainResized w h
        (onSwapchainResized w h st).1).1).cachedSets.all (fun s =>
      (s.keyedHandle != st.rtView) &&
        (s.keyedHandle != (onSwapchainResized w h st).1.rtView))) = true ∧
    (retireInFlightFrames (onSwapchainResized w h
        (onSwapchainResized w h st).1).1).pendingOldViews = [] := by
  refine ⟨rfl, rfl, rfl, rfl, ?_, ?_, ?_, rfl⟩
  · show st.nextHandle + 2 ≠ st.rtView
    omega
  · show st.nextHandle + 2 ≠ st.nextHandle
    omega
  · simp only [retireInFlightFrames, onSwapchainResized, List.all_eq_true]
    intro s hs
    have h := mem_removeSetsWithHandles hs
    obtain ⟨-, hnot⟩ := h
    simp only [List.mem_append, List.mem_singleton, not_or] at hnot
    simp only [Bool.and_eq_true, bne_iff_ne, ne_eq]
    exact ⟨hnot.1.2, hnot.2⟩

/-- C8, witness: the theorem applied to the concrete state `demoLive` with
target dimensions 8 x 8. -/
theorem claim_c8_witness :
    demoLive.rtView < demoLive.nextHandle ∧
    (onSwapchainResized 8 8 demoLive).2 =
      [RebuildAction.rebuildRenderTarget 8 8, RebuildAction.rebuildPipeline] :=
  ⟨by decide, (claim_c8 demoLive 8 8 (by decide)).1⟩

/-- C9: on a shader-source change only the pipeline object is rebuilt (it
gets a fresh identity); the vertex/position, index, normal and
texture-coordinate buffer views, all bottom-level structures, the top-level
structure and the render target are left unchanged. -/
theorem claim_c9 (st : LiveResources) :
    (onShaderFilesChanged st).2 = [RebuildAction.rebuildPipeline] ∧
    (onShaderFilesChanged st).1.mPositionsBufferViews = st.mPositionsBufferViews ∧
    (onShaderFilesChanged st).1.mIndexBufferViews = st.mIndexBufferViews ∧
    (onShaderFilesChanged st).1.mNormalsBufferViews = st.mNormalsBufferViews ∧
    (onShaderFilesChanged st).1.mTexCoordsBufferViews = st.mTexCoordsBufferViews ∧
    (onShaderFilesChanged st).1.mBlas = st.mBlas ∧
    (onShaderFilesChanged st).1.mTlas = st.mTlas ∧
    (onShaderFilesChanged st).1.rtView = st.rtView ∧
    (onShaderFilesChanged st).1.rtWidth = st.rtWidth ∧
    (onShaderFilesChanged st).1.rtHeight = st.rtHeight ∧
    (onShaderFilesChanged st).1.pipelineGen = st.nextHandle :=
  ⟨rfl, rfl, rfl, rfl, rfl, rfl, rfl, rfl, rfl, rfl, rfl⟩
